import Mathlib

/-!
Verification of the Mirra Python SDK client
(`packages/mirra-sdk-python/src/mirra/client.py` and `types.py`).

The SDK is a thin HTTP client: a configuration record built by
`MirraSDK.__init__`, a single transport function `MirraSDK._request`
that unwraps a `{success, data, error}` JSON envelope, and seven
service facades whose methods each perform one transport call.

We embed the runtime values the client manipulates (JSON values as
produced by `response.json()`, Python dictionaries as association
lists), the exceptions that can escape a facade call, and the request
processing logic, and prove the observable contract.
-/

set_option autoImplicit false

namespace Mirra

/-- A JSON value, as returned by Python's `response.json()`.
Numbers are modelled as integers (no claim involves float semantics);
objects are association lists in key order, mirroring Python dicts. -/
inductive Json where
  | null : Json
  | bool : Bool → Json
  | num : Int → Json
  | str : String → Json
  | arr : List Json → Json
  | obj : List (String × Json) → Json
deriving Repr

/-- First-match lookup in an object's key/value list, the semantics of
`d[k]` / `d.get(k)` on a Python dict (whose keys are unique). -/
def jlookup (k : String) : List (String × Json) → Option Json
  | [] => none
  | (k', v) :: rest => if k' = k then some v else jlookup k rest

/-- Python truthiness of a JSON value: `None`, `False`, `0`, `""`,
`[]` and `{}` are falsy, everything else truthy. -/
def Json.truthy : Json → Bool
  | .null => false
  | .bool b => b
  | .num n => n != 0
  | .str s => !(s = "")
  | .arr xs => !xs.isEmpty
  | .obj kvs => !kvs.isEmpty

/-- The `MirraError` exception of `client.py`: message (the value passed
to `Exception.__init__`), `code`, `status_code`, `details` attributes.
`code` and `details` default to `None` (here `Json.null`) and
`status_code` to `None` (here `Option.none`). -/
structure MirraError where
  message : Json
  code : Json
  status_code : Option Nat
  details : Json
deriving Repr

/-- An exception escaping a facade call: either the SDK's `MirraError`,
or a Python `AttributeError` (calling `.get` on a non-dict value), or a
`KeyError` (subscripting a dict with a missing key). -/
inductive PyExc where
  | mirra : MirraError → PyExc
  | attributeError : PyExc
  | keyError : String → PyExc
deriving Repr

/-- What the underlying `requests.Session.request` call produces: either
an HTTP response (status code plus a body that parses to JSON, or `none`
when `response.json()` raises `ValueError`), or a `requests.RequestException`
for a network-level failure (DNS, connection refused, timeout). -/
inductive TransportOutcome where
  | response : Nat → Option Json → TransportOutcome
  | requestException : String → TransportOutcome
deriving Repr

/-- The HTTP request handed to `requests.Session.request`. -/
structure HttpRequest where
  method : String
  url : String
  headers : List (String × String)
  body : Option Json
  query : Option Json
deriving Repr

/-- The client configuration established by `MirraSDK.__init__` and read
by `_request`: the API key, the slash-stripped base URL, and the session
headers. -/
structure ClientConfig where
  api_key : String
  base_url : String
  headers : List (String × String)
deriving Repr

/-- Python's `s.rstrip("/")`: remove every trailing `/` character. -/
def pyRstrip (s : String) (c : Char) : String :=
  String.mk ((s.data.reverse.dropWhile (fun x => x = c)).reverse)

/-- The default `base_url` argument of `MirraSDK.__init__`. -/
def defaultBaseUrl : String := "https://api.fxn.world/api/sdk/v1"

/-- `MirraSDK.__init__`: store the key, strip trailing slashes from the
base URL, and install the fixed session headers. -/
def MirraSDK.init (api_key : String) (base_url : String) : ClientConfig :=
  { api_key := api_key
  , base_url := pyRstrip base_url '/'
  , headers := [("Content-Type", "application/json"), ("X-API-Key", api_key)] }

/-- Python's `d.get(k, default)` on a JSON value: succeeds on a dict,
raises `AttributeError` on any other value (including `None`). -/
def pyDictGet (j : Json) (k : String) (default : Json) : Except PyExc Json :=
  match j with
  | .obj kvs => .ok ((jlookup k kvs).getD default)
  | _ => .error .attributeError

/-- The response-processing logic of `MirraSDK._request` (client.py
lines 87-117), applied to the outcome of the single transport call:

* `requests.RequestException` → `MirraError(f"Request failed: {e}")`;
* body not valid JSON → `MirraError("Invalid JSON response from API",
  status_code=...)`;
* `not result.get("success", False) or status_code >= 400` →
  `MirraError` populated from `result.get("error", {})`;
* otherwise → `result.get("data")`. -/
def processOutcome : TransportOutcome → Except PyExc Json
  | .requestException msg =>
      .error (.mirra
        { message := .str ("Request failed: " ++ msg)
        , code := .null, status_code := none, details := .null })
  | .response sc none =>
      .error (.mirra
        { message := .str "Invalid JSON response from API"
        , code := .null, status_code := some sc, details := .null })
  | .response sc (some result) =>
      match pyDictGet result "success" (.bool false) with
      | .error e => .error e
      | .ok successVal =>
        if !successVal.truthy || 400 ≤ sc then
          match pyDictGet result "error" (.obj []) with
          | .error e => .error e
          | .ok err =>
            match pyDictGet err "message" (.str "Unknown error") with
            | .error e => .error e
            | .ok msg =>
              match pyDictGet err "code" .null with
              | .error e => .error e
              | .ok code =>
                match pyDictGet err "details" .null with
                | .error e => .error e
                | .ok details =>
                  .error (.mirra
                    { message := msg, code := code
                    , status_code := some sc, details := details })
        else
          pyDictGet result "data" .null

/-- `MirraSDK._request`: build the URL by concatenating the stored base
URL and the path, issue the one HTTP request with the session headers,
and process the outcome. Returns the request issued together with the
result, threading the (unmodified) configuration state. -/
def MirraSDK.request (cfg : ClientConfig) (method : String) (path : String)
    (data : Option Json) (params : Option Json) (outcome : TransportOutcome) :
    ClientConfig × HttpRequest × Except PyExc Json :=
  let url := cfg.base_url ++ path
  let req : HttpRequest :=
    { method := method, url := url, headers := cfg.headers
    , body := data, query := params }
  (cfg, req, processOutcome outcome)

mutual

/-- Python's `repr` of a JSON-shaped value, as used when a non-string
value is interpolated inside a container. -/
def pyRepr : Json → String
  | .null => "None"
  | .bool b => cond b "True" "False"
  | .num n => toString n
  | .str s => "\x27" ++ s ++ "\x27"
  | .arr xs => "[" ++ pyReprItems xs ++ "]"
  | .obj kvs => "\x7b" ++ pyReprPairs kvs ++ "\x7d"

/-- Comma-joined `repr`s of a list's items. -/
def pyReprItems : List Json → String
  | [] => ""
  | [j] => pyRepr j
  | j :: rest => pyRepr j ++ ", " ++ pyReprItems rest

/-- Comma-joined `repr`s of a dict's key/value pairs. -/
def pyReprPairs : List (String × Json) → String
  | [] => ""
  | [(k, v)] => "\x27" ++ k ++ "\x27: " ++ pyRepr v
  | (k, v) :: rest => "\x27" ++ k ++ "\x27: " ++ pyRepr v ++ ", " ++ pyReprPairs rest

end

/-- Python's `str()` of a JSON-shaped value, the conversion an f-string
such as `f"/scripts/{script_id}/invoke"` applies: a string interpolates
as itself, anything else via `repr`-style rendering. -/
def pyStr (j : Json) : String :=
  match j with
  | .str s => s
  | _ => pyRepr j

/-- `d[k] = v` on a Python dict modelled as an association list: replace
the binding in place if the key exists, else append it. -/
def dictInsert (kvs : List (String × Json)) (k : String) (v : Json) :
    List (String × Json) :=
  match kvs with
  | [] => [(k, v)]
  | (k', v') :: rest =>
      if k' = k then (k, v) :: rest else (k', v') :: dictInsert rest k v

/-- The dict-display semantics of `{"id": id, **updates}`: start from
the base dict and insert the splatted dict's bindings in order, later
bindings overriding earlier ones. -/
def dictMerge (base updates : List (String × Json)) : List (String × Json) :=
  updates.foldl (fun acc kv => dictInsert acc kv.1 kv.2) base

/-- One facade-method invocation with its arguments, covering every
method of the seven services in `client.py`. Arguments annotated `str`
in the source are `String`; open `TypedDict` parameter records are
JSON values (dicts at runtime). -/
inductive FacadeCall where
  | memoryCreate (entity : Json)
  | memorySearch (query : Json)
  | memoryQuery (params : Json)
  | memoryFindOne (id : String)
  | memoryUpdate (id : String) (updates : List (String × Json))
  | memoryDelete (id : String)
  | aiChat (request : Json)
  | aiDecide (request : Json)
  | aiBatchChat (request : Json)
  | agentsCreate (params : Json)
  | agentsGet (id : String)
  | agentsList
  | agentsUpdate (id : String) (params : Json)
  | agentsDelete (id : String)
  | scriptsCreate (params : Json)
  | scriptsGet (id : String)
  | scriptsList
  | scriptsUpdate (id : String) (params : Json)
  | scriptsDelete (id : String)
  | scriptsDeploy (id : String)
  | scriptsInvoke (params : List (String × Json))
  | resourcesCall (params : Json)
  | resourcesList
  | resourcesGet (id : String)
  | templatesList
  | templatesGet (id : String)
  | templatesInstall (id : String)
  | marketplaceBrowse (filters : Option Json)
  | marketplaceSearch (query : String)
deriving Repr

/-- The observable effect of one facade call: either an exception raised
before any HTTP request was issued, or the single request issued together
with the processed result, and the configuration state after the call. -/
inductive FacadeResult where
  | noRequest : ClientConfig → PyExc → FacadeResult
  | requested : ClientConfig → HttpRequest → Except PyExc Json → FacadeResult
deriving Repr

/-- Wrap one `_request` call as a `FacadeResult`. -/
def viaRequest (cfg : ClientConfig) (method : String) (path : String)
    (data : Option Json) (params : Option Json) (outcome : TransportOutcome) :
    FacadeResult :=
  let (cfg', req, res) := MirraSDK.request cfg method path data params outcome
  .requested cfg' req res

/-- Run one facade method: each arm is the body of the corresponding
method in `client.py`, delegating to `MirraSDK._request` with the fixed
HTTP method and path. `outcome` is what the one transport call produces. -/
def runFacade (cfg : ClientConfig) (call : FacadeCall)
    (outcome : TransportOutcome) : FacadeResult :=
  match call with
  | .memoryCreate entity =>
      viaRequest cfg "POST" "/memory" (some entity) none outcome
  | .memorySearch query =>
      viaRequest cfg "POST" "/memory/search" (some query) none outcome
  | .memoryQuery params =>
      viaRequest cfg "POST" "/memory/query" (some params) none outcome
  | .memoryFindOne id =>
      viaRequest cfg "POST" "/memory/findOne"
        (some (.obj [("id", .str id)])) none outcome
  | .memoryUpdate id updates =>
      viaRequest cfg "POST" "/memory/update"
        (some (.obj (dictMerge [("id", .str id)] updates))) none outcome
  | .memoryDelete id =>
      viaRequest cfg "POST" "/memory/delete"
        (some (.obj [("id", .str id)])) none outcome
  | .aiChat request =>
      viaRequest cfg "POST" "/ai/chat" (some request) none outcome
  | .aiDecide request =>
      viaRequest cfg "POST" "/ai/decide" (some request) none outcome
  | .aiBatchChat request =>
      viaRequest cfg "POST" "/ai/batchChat" (some request) none outcome
  | .agentsCreate params =>
      viaRequest cfg "POST" "/agents" (some params) none outcome
  | .agentsGet id =>
      viaRequest cfg "GET" ("/agents/" ++ id) none none outcome
  | .agentsList =>
      viaRequest cfg "GET" "/agents" none none outcome
  | .agentsUpdate id params =>
      viaRequest cfg "PATCH" ("/agents/" ++ id) (some params) none outcome
  | .agentsDelete id =>
      viaRequest cfg "DELETE" ("/agents/" ++ id) none none outcome
  | .scriptsCreate params =>
      viaRequest cfg "POST" "/scripts" (some params) none outcome
  | .scriptsGet id =>
      viaRequest cfg "GET" ("/scripts/" ++ id) none none outcome
  | .scriptsList =>
      viaRequest cfg "GET" "/scripts" none none outcome
  | .scriptsUpdate id params =>
      viaRequest cfg "PATCH" ("/scripts/" ++ id) (some params) none outcome
  | .scriptsDelete id =>
      viaRequest cfg "DELETE" ("/scripts/" ++ id) none none outcome
  | .scriptsDeploy id =>
      viaRequest cfg "POST" ("/scripts/" ++ id ++ "/deploy") none none outcome
  | .scriptsInvoke params =>
      match jlookup "scriptId" params with
      | none => .noRequest cfg (.keyError "scriptId")
      | some sid =>
          viaRequest cfg "POST"
            ("/scripts/" ++ pyStr sid ++ "/invoke")
            (some (.obj [("payload", (jlookup "payload" params).getD .null)]))
            none outcome
  | .resourcesCall params =>
      viaRequest cfg "POST" "/resources/call" (some params) none outcome
  | .resourcesList =>
      viaRequest cfg "GET" "/resources" none none outcome
  | .resourcesGet id =>
      viaRequest cfg "GET" ("/resources/" ++ id) none none outcome
  | .templatesList =>
      viaRequest cfg "GET" "/templates" none none outcome
  | .templatesGet id =>
      viaRequest cfg "GET" ("/templates/" ++ id) none none outcome
  | .templatesInstall id =>
      viaRequest cfg "POST" ("/templates/" ++ id ++ "/install") none none outcome
  | .marketplaceBrowse filters =>
      viaRequest cfg "GET" "/marketplace" none filters outcome
  | .marketplaceSearch query =>
      viaRequest cfg "GET" "/marketplace/search" none
        (some (.obj [("q", .str query)])) outcome

/-- The HTTP requests a facade call issued: at most the one transport
attempt (`_request` contains a single `session.request` call, no loop). -/
def FacadeResult.attempts : FacadeResult → List HttpRequest
  | .noRequest _ _ => []
  | .requested _ r _ => [r]

/-- The configuration state after the facade call. -/
def FacadeResult.finalConfig : FacadeResult → ClientConfig
  | .noRequest cfg _ => cfg
  | .requested cfg _ _ => cfg

/-!  Helper lemmas shared by the claim theorems. -/

/-- Every facade method returns the transport's processed result
unchanged: whenever a facade call issued its request, the result is
exactly `processOutcome` of the transport outcome. -/
theorem runFacade_requested (cfg : ClientConfig) (call : FacadeCall)
    (outcome : TransportOutcome) (cfg' : ClientConfig) (req : HttpRequest)
    (res : Except PyExc Json)
    (h : runFacade cfg call outcome = .requested cfg' req res) :
    res = processOutcome outcome := by
  cases call <;>
    first
    | (simp only [runFacade, viaRequest, MirraSDK.request,
        FacadeResult.requested.injEq] at h
       exact h.2.2.symm)
    | (rename_i params
       rcases hj : jlookup "scriptId" params with _ | sid <;>
         simp only [runFacade, hj, viaRequest, MirraSDK.request] at h
       · cases h
       · exact (FacadeResult.requested.inj h).2.2.symm)

/-- A facade call never issues more than one HTTP request. -/
theorem runFacade_attempts_le_one (cfg : ClientConfig) (call : FacadeCall)
    (outcome : TransportOutcome) :
    (runFacade cfg call outcome).attempts.length ≤ 1 := by
  cases call <;>
    simp only [runFacade, viaRequest, MirraSDK.request] <;>
    (try split) <;> simp [FacadeResult.attempts]

/-- Condition of the error branch of `_request`:
`not result.get("success", False) or response.status_code >= 400`. -/
def errBranch (sc : Nat) (kvs : List (String × Json)) : Bool :=
  !((jlookup "success" kvs).getD (Json.bool false)).truthy || decide (400 ≤ sc)

/-- The success path of `_request`: when the error branch is not taken,
it returns `result.get("data")`. -/
theorem processOutcome_ok (sc : Nat) (kvs : List (String × Json))
    (hcond : errBranch sc kvs = false) :
    processOutcome (.response sc (some (.obj kvs))) =
      .ok ((jlookup "data" kvs).getD .null) := by
  rw [errBranch] at hcond
  simp only [processOutcome, pyDictGet, hcond]
  simp

/-- The error path of `_request` when the envelope's `error` value is an
object: the raised `MirraError` is populated from that object's
`message`, `code` and `details` keys. -/
theorem processOutcome_err (sc : Nat) (kvs ekvs : List (String × Json))
    (hcond : errBranch sc kvs = true)
    (herr : (jlookup "error" kvs).getD (.obj []) = .obj ekvs) :
    processOutcome (.response sc (some (.obj kvs))) =
      .error (.mirra
        { message := (jlookup "message" ekvs).getD (.str "Unknown error")
        , code := (jlookup "code" ekvs).getD .null
        , status_code := some sc
        , details := (jlookup "details" ekvs).getD .null }) := by
  rw [errBranch] at hcond
  simp only [processOutcome, pyDictGet, hcond, herr]
  simp

/-!  Claim theorems. -/

/-- C1: for every facade method, when the transport receives a response
with HTTP status < 400 whose body parses as a JSON object with `success`
equal to `true`, the method returns exactly the envelope's `data` field
unchanged, and `null` (`None`) when the `data` field is absent. -/
theorem facade_success_returns_data
    (cfg cfg' : ClientConfig) (call : FacadeCall) (sc : Nat)
    (kvs : List (String × Json)) (req : HttpRequest) (res : Except PyExc Json)
    (hsc : sc < 400)
    (hsucc : jlookup "success" kvs = some (.bool true))
    (hrun : runFacade cfg call (.response sc (some (.obj kvs))) =
      .requested cfg' req res) :
    res = .ok ((jlookup "data" kvs).getD .null) := by
  rw [runFacade_requested cfg call _ cfg' req res hrun]
  apply processOutcome_ok
  rw [errBranch, hsucc]
  simp [Json.truthy]
  omega

/-- Witness for C1: a successful chat call with envelope
`{"success": true, "data": 7}` returns `7`. -/
theorem facade_success_returns_data_witness :
    (Except.ok (Json.num 7) : Except PyExc Json) =
      .ok ((jlookup "data"
        [("success", Json.bool true), ("data", Json.num 7)]).getD .null) :=
  facade_success_returns_data
    { api_key := "k", base_url := "b", headers := [] }
    { api_key := "k", base_url := "b", headers := [] }
    (.aiChat (.obj [])) 200
    [("success", Json.bool true), ("data", Json.num 7)]
    { method := "POST", url := "b" ++ "/ai/chat", headers := []
    , body := some (.obj []), query := none }
    (.ok (Json.num 7))
    (by decide) rfl rfl

/-- C2: for every facade method, when the body is a JSON object in which
`success` is `false`, or the HTTP status is ≥ 400, the call fails with a
`MirraError` whose message, code and details come from the envelope's
`error` object (absent error key meaning the empty object), whose
`status_code` is the HTTP status, and whose message defaults to
`"Unknown error"` when the error object has no message. -/
theorem facade_failure_raises_api_error
    (cfg cfg' : ClientConfig) (call : FacadeCall) (sc : Nat)
    (kvs ekvs : List (String × Json)) (req : HttpRequest)
    (res : Except PyExc Json)
    (hcond : jlookup "success" kvs = some (.bool false) ∨ 400 ≤ sc)
    (herr : (jlookup "error" kvs).getD (.obj []) = .obj ekvs)
    (hrun : runFacade cfg call (.response sc (some (.obj kvs))) =
      .requested cfg' req res) :
    res = .error (.mirra
      { message := (jlookup "message" ekvs).getD (.str "Unknown error")
      , code := (jlookup "code" ekvs).getD .null
      , status_code := some sc
      , details := (jlookup "details" ekvs).getD .null }) := by
  rw [runFacade_requested cfg call _ cfg' req res hrun]
  apply processOutcome_err sc kvs ekvs _ herr
  rw [errBranch]
  rcases hcond with h | h
  · rw [h]; simp [Json.truthy]
  · simp [h]

/-- Witness for C2: envelope
`{"success": false, "error": {"message": "m", "code": "c"}}` makes a
delete call fail with message `"m"`, code `"c"` and the HTTP status. -/
theorem facade_failure_raises_api_error_witness :
    (Except.error (PyExc.mirra
      { message := Json.str "m", code := Json.str "c"
      , status_code := some 200, details := Json.null }) :
        Except PyExc Json) =
      .error (.mirra
        { message := (jlookup "message"
            [("message", Json.str "m"), ("code", Json.str "c")]).getD
              (.str "Unknown error")
        , code := (jlookup "code"
            [("message", Json.str "m"), ("code", Json.str "c")]).getD .null
        , status_code := some 200
        , details := (jlookup "details"
            [("message", Json.str "m"), ("code", Json.str "c")]).getD
              .null }) :=
  facade_failure_raises_api_error
    { api_key := "k", base_url := "b", headers := [] }
    { api_key := "k", base_url := "b", headers := [] }
    (.agentsDelete "a1") 200
    [("success", Json.bool false)
    , ("error", .obj [("message", Json.str "m"), ("code", Json.str "c")])]
    [("message", Json.str "m"), ("code", Json.str "c")]
    { method := "DELETE", url := "b" ++ ("/agents/" ++ "a1"), headers := []
    , body := none, query := none }
    (.error (.mirra
      { message := Json.str "m", code := Json.str "c"
      , status_code := some 200, details := Json.null }))
    (Or.inl rfl) rfl rfl

/-- C4: for every facade method, a response whose body is not valid JSON
fails with the invalid-response `MirraError` carrying the response's
HTTP status code. -/
theorem facade_invalid_json_error
    (cfg cfg' : ClientConfig) (call : FacadeCall) (sc : Nat)
    (req : HttpRequest) (res : Except PyExc Json)
    (hrun : runFacade cfg call (.response sc none) =
      .requested cfg' req res) :
    res = .error (.mirra
      { message := .str "Invalid JSON response from API"
      , code := .null, status_code := some sc, details := .null }) := by
  rw [runFacade_requested cfg call _ cfg' req res hrun]
  rfl

/-- Witness for C4: HTTP 404 with a malformed body yields the
invalid-response error with status code 404. -/
theorem facade_invalid_json_error_witness :
    (Except.error (PyExc.mirra
      { message := .str "Invalid JSON response from API"
      , code := .null, status_code := some 404, details := .null }) :
        Except PyExc Json) =
      .error (.mirra
        { message := .str "Invalid JSON response from API"
        , code := .null, status_code := some 404, details := .null }) :=
  facade_invalid_json_error
    { api_key := "k", base_url := "b", headers := [] }
    { api_key := "k", base_url := "b", headers := [] }
    (.agentsList) 404
    { method := "GET", url := "b" ++ "/agents", headers := []
    , body := none, query := none }
    (.error (.mirra
      { message := .str "Invalid JSON response from API"
      , code := .null, status_code := some 404, details := .null }))
    rfl

/-- C9: for every facade method, a JSON-object body lacking the
`success` key entirely is treated as a failure: even with HTTP status
200 and a `data` field present, the call fails with a `MirraError`
(message `"Unknown error"` when no error object is present) rather than
returning the data. -/
theorem facade_missing_success_fails
    (cfg cfg' : ClientConfig) (call : FacadeCall) (sc : Nat)
    (kvs : List (String × Json)) (req : HttpRequest) (res : Except PyExc Json)
    (hnosucc : jlookup "success" kvs = none)
    (hnoerr : jlookup "error" kvs = none)
    (hrun : runFacade cfg call (.response sc (some (.obj kvs))) =
      .requested cfg' req res) :
    res = .error (.mirra
      { message := .str "Unknown error", code := .null
      , status_code := some sc, details := .null }) := by
  rw [runFacade_requested cfg call _ cfg' req res hrun]
  rw [processOutcome_err sc kvs []
    (by rw [errBranch, hnosucc]; rfl)
    (by rw [hnoerr]; rfl)]
  rfl

/-- Witness for C9: a 200 response with body `{"data": 5}` fails with
`"Unknown error"` and status code 200 instead of returning `5`. -/
theorem facade_missing_success_fails_witness :
    (Except.error (PyExc.mirra
      { message := .str "Unknown error", code := .null
      , status_code := some 200, details := .null }) : Except PyExc Json) =
      .error (.mirra
        { message := .str "Unknown error", code := .null
        , status_code := some 200, details := .null }) :=
  facade_missing_success_fails
    { api_key := "k", base_url := "b", headers := [] }
    { api_key := "k", base_url := "b", headers := [] }
    (.templatesList) 200 [("data", Json.num 5)]
    { method := "GET", url := "b" ++ "/templates", headers := []
    , body := none, query := none }
    (.error (.mirra
      { message := .str "Unknown error", code := .null
      , status_code := some 200, details := .null }))
    rfl rfl rfl

/-- C5: for every facade method, when the underlying HTTP request itself
fails with a network failure, the call fails with a `MirraError` carrying
a message and no status code; the transport performed exactly the one
attempt, and no call ever performs more than one attempt. -/
theorem facade_network_failure_single_attempt
    (cfg cfg' : ClientConfig) (call : FacadeCall) (msg : String)
    (req : HttpRequest) (res : Except PyExc Json)
    (hrun : runFacade cfg call (.requestException msg) =
      .requested cfg' req res) :
    res = .error (.mirra
      { message := .str ("Request failed: " ++ msg)
      , code := .null, status_code := none, details := .null })
    ∧ (runFacade cfg call (.requestException msg)).attempts = [req]
    ∧ ∀ outcome, (runFacade cfg call outcome).attempts.length ≤ 1 := by
  refine ⟨?_, ?_, fun outcome => runFacade_attempts_le_one cfg call outcome⟩
  · rw [runFacade_requested cfg call _ cfg' req res hrun]; rfl
  · rw [hrun]; rfl

/-- Witness for C5: a connection failure during a list call surfaces as
`MirraError` with message `"Request failed: boom"` and no status code,
after exactly one attempt. -/
theorem facade_network_failure_single_attempt_witness :
    (Except.error (PyExc.mirra
      { message := .str ("Request failed: " ++ "boom")
      , code := .null, status_code := none, details := .null }) :
        Except PyExc Json) =
      .error (.mirra
        { message := .str ("Request failed: " ++ "boom")
        , code := .null, status_code := none, details := .null }) ∧
    (runFacade { api_key := "k", base_url := "b", headers := [] }
        (.resourcesList) (.requestException "boom")).attempts =
      [{ method := "GET", url := "b" ++ "/resources", headers := []
       , body := none, query := none }] :=
  ⟨(facade_network_failure_single_attempt
      { api_key := "k", base_url := "b", headers := [] }
      { api_key := "k", base_url := "b", headers := [] }
      (.resourcesList) "boom"
      { method := "GET", url := "b" ++ "/resources", headers := []
      , body := none, query := none }
      (.error (.mirra
        { message := .str ("Request failed: " ++ "boom")
        , code := .null, status_code := none, details := .null }))
      rfl).1
  , (facade_network_failure_single_attempt
      { api_key := "k", base_url := "b", headers := [] }
      { api_key := "k", base_url := "b", headers := [] }
      (.resourcesList) "boom"
      { method := "GET", url := "b" ++ "/resources", headers := []
      , body := none, query := none }
      (.error (.mirra
        { message := .str ("Request failed: " ++ "boom")
        , code := .null, status_code := none, details := .null }))
      rfl).2.1⟩

/-- A transport outcome whose envelope the `_request` error handling can
process without calling `.get` on a non-dict value: a JSON body must be
an object, and when the error branch is taken the envelope's `error`
value (defaulted to the empty object) must be an object. -/
def envelopeSafe : TransportOutcome → Prop
  | .response sc (some j) =>
      ∃ kvs, j = Json.obj kvs ∧
        (errBranch sc kvs = true →
          ∃ ekvs, (jlookup "error" kvs).getD (Json.obj []) = Json.obj ekvs)
  | _ => True

/-- C3 counterexample: the claim that every failure surfaces as the
structured API error is false as stated. An envelope whose `error` field
is JSON `null` (`{"success": false, "error": null}`), and a body that is
valid JSON but not an object (`[]`), both make the call raise a Python
`AttributeError` (from `.get` on a non-dict), not a `MirraError`. -/
theorem facade_non_mirra_exception :
    runFacade { api_key := "k", base_url := "b", headers := [] }
      (.aiChat (.obj []))
      (.response 200 (some (.obj
        [("success", .bool false), ("error", .null)])))
      = .requested { api_key := "k", base_url := "b", headers := [] }
          { method := "POST", url := "b" ++ "/ai/chat", headers := []
          , body := some (.obj []), query := none }
          (.error .attributeError)
    ∧ runFacade { api_key := "k", base_url := "b", headers := [] }
        (.aiChat (.obj []))
        (.response 200 (some (.arr [])))
      = .requested { api_key := "k", base_url := "b", headers := [] }
          { method := "POST", url := "b" ++ "/ai/chat", headers := []
          , body := some (.obj []), query := none }
          (.error .attributeError) :=
  ⟨rfl, rfl⟩

/-- C3 amended: for every facade call that issues its request, and every
transport outcome whose JSON body (when present) is an object whose
`error` value is an object or absent whenever the failure branch is
taken, every failure surfaces as the single structured `MirraError`. -/
theorem facade_failures_are_mirra_errors
    (cfg cfg' : ClientConfig) (call : FacadeCall) (outcome : TransportOutcome)
    (req : HttpRequest) (e : PyExc)
    (hsafe : envelopeSafe outcome)
    (hrun : runFacade cfg call outcome = .requested cfg' req (.error e)) :
    ∃ me, e = PyExc.mirra me := by
  have hres := runFacade_requested cfg call outcome cfg' req (.error e) hrun
  cases outcome with
  | requestException msg =>
      exact ⟨_, by simpa [processOutcome] using hres⟩
  | response sc body =>
      cases body with
      | none => exact ⟨_, by simpa [processOutcome] using hres⟩
      | some j =>
          obtain ⟨kvs, rfl, himp⟩ := hsafe
          by_cases hc : errBranch sc kvs = true
          · obtain ⟨ekvs, herr⟩ := himp hc
            rw [processOutcome_err sc kvs ekvs hc herr] at hres
            exact ⟨_, by simpa using hres⟩
          · rw [processOutcome_ok sc kvs (by simpa using hc)] at hres
            simp at hres

/-- Witness for the amended C3: a network failure produces a
`MirraError`. -/
theorem facade_failures_are_mirra_errors_witness :
    ∃ me, (PyExc.mirra
      { message := .str ("Request failed: " ++ "down")
      , code := .null, status_code := none, details := .null })
        = PyExc.mirra me :=
  facade_failures_are_mirra_errors
    { api_key := "k", base_url := "b", headers := [] }
    { api_key := "k", base_url := "b", headers := [] }
    (.memoryDelete "m1") (.requestException "down")
    { method := "POST", url := "b" ++ "/memory/delete", headers := []
    , body := some (.obj [("id", .str "m1")]), query := none }
    (.mirra
      { message := .str ("Request failed: " ++ "down")
      , code := .null, status_code := none, details := .null })
    trivial rfl

/-- C8: every facade method call leaves the client's configuration state
unchanged — after any call the configuration equals its value before the
call — and running a second call after any first call gives exactly the
result of running it alone: no state produced by a previous call is read
or written. -/
theorem facade_leaves_config_unchanged
    (cfg : ClientConfig) (call₁ call₂ : FacadeCall)
    (o₁ o₂ : TransportOutcome) :
    (runFacade cfg call₁ o₁).finalConfig = cfg
    ∧ runFacade (runFacade cfg call₁ o₁).finalConfig call₂ o₂ =
        runFacade cfg call₂ o₂ := by
  have h : (runFacade cfg call₁ o₁).finalConfig = cfg := by
    cases call₁ <;>
      simp only [runFacade, viaRequest, MirraSDK.request] <;>
      (try split) <;> rfl
  exact ⟨h, by rw [h]⟩

/-- Witness for C8: after a chat call that fails on the network, the
configuration is unchanged and a subsequent list call behaves as if run
first. -/
theorem facade_leaves_config_unchanged_witness :
    (runFacade (MirraSDK.init "k" "b") (.aiChat (.obj []))
      (.requestException "e")).finalConfig = MirraSDK.init "k" "b"
    ∧ runFacade (runFacade (MirraSDK.init "k" "b") (.aiChat (.obj []))
        (.requestException "e")).finalConfig (.agentsList)
        (.response 200 none) =
      runFacade (MirraSDK.init "k" "b") (.agentsList)
        (.response 200 none) :=
  facade_leaves_config_unchanged (MirraSDK.init "k" "b")
    (.aiChat (.obj [])) (.agentsList)
    (.requestException "e") (.response 200 none)

/-- The first element surviving `dropWhile` does not satisfy the
predicate. -/
theorem head_dropWhile_not {α : Type} (p : α → Bool) (l : List α) (a : α)
    (h : (l.dropWhile p).head? = some a) : p a = false := by
  induction l with
  | nil => simp [List.dropWhile] at h
  | cons c rest ih =>
      by_cases hp : p c
      · rw [List.dropWhile_cons_of_pos hp] at h; exact ih h
      · rw [List.dropWhile_cons_of_neg hp] at h
        simp only [List.head?_cons, Option.some.injEq] at h
        subst h
        simpa using hp

/-- C6: the client strips trailing slashes from the base URL at
construction (what was removed is a run of slashes, and nothing stripped
remains), every request URL is the stored base URL concatenated with the
path, and in particular base URL `"https://x/api/"` with path `/agents`
gives `https://x/api/agents` with no double slash. -/
theorem base_url_strip_and_concat
    (api_key b method path : String) (data params : Option Json)
    (outcome : TransportOutcome) :
    (∃ n, (MirraSDK.init api_key b).base_url
        ++ String.mk (List.replicate n '/') = b)
    ∧ (MirraSDK.init api_key b).base_url.data.getLast? ≠ some '/'
    ∧ (MirraSDK.request (MirraSDK.init api_key b) method path data params
        outcome).2.1.url = (MirraSDK.init api_key b).base_url ++ path
    ∧ (MirraSDK.request (MirraSDK.init "k" "https://x/api/") "GET"
        "/agents" none none outcome).2.1.url = "https://x/api/agents" := by
  refine ⟨⟨(b.data.reverse.takeWhile (fun x => x = '/')).length, ?_⟩,
    ?_, rfl, rfl⟩
  · show String.mk
      ((b.data.reverse.dropWhile (fun x => x = '/')).reverse
        ++ List.replicate _ '/') = b
    have hrep : (b.data.reverse.takeWhile (fun x => x = '/')).reverse
        = List.replicate
            (b.data.reverse.takeWhile (fun x => x = '/')).length '/' := by
      rw [List.reverse_eq_iff, List.reverse_replicate]
      refine List.eq_replicate_length.mpr (fun x hx => ?_)
      have hp := List.mem_takeWhile_imp hx
      simpa using hp
    calc String.mk
          ((b.data.reverse.dropWhile (fun x => x = '/')).reverse
            ++ List.replicate
                (b.data.reverse.takeWhile (fun x => x = '/')).length '/')
        = String.mk
            ((b.data.reverse.dropWhile (fun x => x = '/')).reverse
              ++ (b.data.reverse.takeWhile (fun x => x = '/')).reverse) := by
          rw [hrep]
      _ = String.mk
            ((b.data.reverse.takeWhile (fun x => x = '/')
              ++ b.data.reverse.dropWhile (fun x => x = '/')).reverse) := by
          rw [List.reverse_append]
      _ = String.mk (b.data.reverse.reverse) := by
          rw [List.takeWhile_append_dropWhile]
      _ = b := by rw [List.reverse_reverse]
  · intro hlast
    have hlast' : ((b.data.reverse.dropWhile
        (fun x => x = '/')).reverse).getLast? = some '/' := hlast
    rw [List.getLast?_reverse] at hlast'
    have := head_dropWhile_not _ _ _ hlast'
    simp at this

/-- Witness for C6 at base URL `"https://x/api/"`: the stored base URL
is a slash-stripped prefix and the `/agents` request URL has no double
slash. -/
theorem base_url_strip_and_concat_witness :
    (∃ n, (MirraSDK.init "k" "https://x/api/").base_url
        ++ String.mk (List.replicate n '/') = "https://x/api/")
    ∧ (MirraSDK.init "k" "https://x/api/").base_url.data.getLast?
        ≠ some '/'
    ∧ (MirraSDK.request (MirraSDK.init "k" "https://x/api/") "GET"
        "/agents" none none (.requestException "e")).2.1.url
        = (MirraSDK.init "k" "https://x/api/").base_url ++ "/agents"
    ∧ (MirraSDK.request (MirraSDK.init "k" "https://x/api/") "GET"
        "/agents" none none (.requestException "e")).2.1.url
        = "https://x/api/agents" :=
  base_url_strip_and_concat "k" "https://x/api/" "GET" "/agents"
    none none (.requestException "e")

/-- C7: `scripts.invoke` with a params dict holding `scriptId` `s` and
optionally `payload` `v` performs exactly one POST to
`/scripts/s/invoke` with body `{"payload": v}`, the payload defaulting
to `null` when the key is absent. -/
theorem scripts_invoke_post
    (cfg : ClientConfig) (params : List (String × Json)) (sid : String)
    (outcome : TransportOutcome)
    (hsid : jlookup "scriptId" params = some (.str sid)) :
    runFacade cfg (.scriptsInvoke params) outcome =
      .requested cfg
        { method := "POST"
        , url := cfg.base_url ++ ("/scripts/" ++ sid ++ "/invoke")
        , headers := cfg.headers
        , body := some (.obj
            [("payload", (jlookup "payload" params).getD .null)])
        , query := none }
        (processOutcome outcome)
    ∧ (runFacade cfg (.scriptsInvoke params) outcome).attempts.length
        = 1 := by
  have h1 : runFacade cfg (.scriptsInvoke params) outcome =
      .requested cfg
        { method := "POST"
        , url := cfg.base_url ++ ("/scripts/" ++ sid ++ "/invoke")
        , headers := cfg.headers
        , body := some (.obj
            [("payload", (jlookup "payload" params).getD .null)])
        , query := none }
        (processOutcome outcome) := by
    simp only [runFacade, hsid, viaRequest, MirraSDK.request, pyStr]
  exact ⟨h1, by rw [h1]; rfl⟩

/-- Witness for C7: `scripts.invoke({"scriptId": "s1", "payload": {"x": 1}})`
posts to `/scripts/s1/invoke` with body `{"payload": {"x": 1}}`. -/
theorem scripts_invoke_post_witness :
    runFacade { api_key := "k", base_url := "b", headers := [] }
      (.scriptsInvoke
        [("scriptId", .str "s1"), ("payload", .obj [("x", .num 1)])])
      (.requestException "e") =
      .requested { api_key := "k", base_url := "b", headers := [] }
        { method := "POST"
        , url := "b" ++ ("/scripts/" ++ "s1" ++ "/invoke")
        , headers := []
        , body := some (.obj
            [("payload", (jlookup "payload"
              [("scriptId", Json.str "s1")
              , ("payload", Json.obj [("x", Json.num 1)])]).getD .null)])
        , query := none }
        (processOutcome (.requestException "e"))
    ∧ (runFacade { api_key := "k", base_url := "b", headers := [] }
        (.scriptsInvoke
          [("scriptId", .str "s1"), ("payload", .obj [("x", .num 1)])])
        (.requestException "e")).attempts.length = 1 :=
  scripts_invoke_post
    { api_key := "k", base_url := "b", headers := [] }
    [("scriptId", .str "s1"), ("payload", .obj [("x", .num 1)])]
    "s1" (.requestException "e") rfl

/-- Looking up the key just written by `dictInsert` yields the new
value. -/
theorem jlookup_dictInsert_self (kvs : List (String × Json)) (k : String)
    (v : Json) : jlookup k (dictInsert kvs k v) = some v := by
  induction kvs with
  | nil => simp [dictInsert, jlookup]
  | cons hd tl ih =>
      obtain ⟨k', v'⟩ := hd
      by_cases h : k' = k <;> simp [dictInsert, h, jlookup, ih]

/-- `dictInsert` does not change the binding of any other key. -/
theorem jlookup_dictInsert_ne (kvs : List (String × Json)) (k k' : String)
    (v : Json) (hne : k' ≠ k) :
    jlookup k' (dictInsert kvs k v) = jlookup k' kvs := by
  have hkk : ¬ k = k' := fun he => hne he.symm
  induction kvs with
  | nil => simp [dictInsert, jlookup, hkk]
  | cons hd tl ih =>
      obtain ⟨k₁, v₁⟩ := hd
      by_cases h : k₁ = k
      · subst h
        simp [dictInsert, jlookup, hkk]
      · simp [dictInsert, h, jlookup, ih]

/-- A key outside a dict's key set has no binding. -/
theorem jlookup_eq_none_of_not_mem (l : List (String × Json)) (k : String)
    (h : k ∉ l.map Prod.fst) : jlookup k l = none := by
  induction l with
  | nil => rfl
  | cons hd tl ih =>
      obtain ⟨k', v⟩ := hd
      simp only [List.map_cons, List.mem_cons] at h
      push_neg at h
      rw [jlookup, if_neg (fun he => h.1 he.symm)]
      exact ih h.2

/-- Lookup in the dict built by `{**base, **updates}`-style merging:
the updates' binding wins, falling back to the base dict. -/
theorem jlookup_dictMerge (base updates : List (String × Json))
    (k : String) (hnd : (updates.map Prod.fst).Nodup) :
    jlookup k (dictMerge base updates) =
      (match jlookup k updates with
        | some v => some v
        | none => jlookup k base) := by
  induction updates generalizing base with
  | nil => rfl
  | cons hd rest ih =>
      obtain ⟨k₁, v₁⟩ := hd
      simp only [List.map_cons, List.nodup_cons] at hnd
      have hmerge : dictMerge base ((k₁, v₁) :: rest)
          = dictMerge (dictInsert base k₁ v₁) rest := rfl
      rw [hmerge, ih _ hnd.2]
      by_cases h : k₁ = k
      · subst h
        rw [jlookup_eq_none_of_not_mem rest k₁ hnd.1]
        rw [jlookup, if_pos rfl, jlookup_dictInsert_self]
      · rw [jlookup, if_neg h, jlookup_dictInsert_ne base k₁ k v₁
          (fun he => h he.symm)]

/-- C10: `memory.update(id, updates)` sends body
`{"id": id, **updates}` — the updates dict merged over the id argument —
and the body's `id` binding is the updates' own `id` when present,
otherwise the id argument. -/
theorem memory_update_body
    (cfg : ClientConfig) (i : String) (updates : List (String × Json))
    (outcome : TransportOutcome)
    (hnd : (updates.map Prod.fst).Nodup) :
    runFacade cfg (.memoryUpdate i updates) outcome =
      .requested cfg
        { method := "POST", url := cfg.base_url ++ "/memory/update"
        , headers := cfg.headers
        , body := some (.obj (dictMerge [("id", .str i)] updates))
        , query := none }
        (processOutcome outcome)
    ∧ jlookup "id" (dictMerge [("id", .str i)] updates) =
        some ((jlookup "id" updates).getD (.str i)) := by
  refine ⟨rfl, ?_⟩
  rw [jlookup_dictMerge _ _ _ hnd]
  cases h : jlookup "id" updates
  · simp [jlookup]
  · simp

/-- Witness for C10: with updates `{"content": "c", "id": "inner"}` the
body's `id` is `"inner"`, overriding the id argument `"outer"`. -/
theorem memory_update_body_witness :
    runFacade { api_key := "k", base_url := "b", headers := [] }
      (.memoryUpdate "outer"
        [("content", .str "c"), ("id", .str "inner")])
      (.requestException "e") =
      .requested { api_key := "k", base_url := "b", headers := [] }
        { method := "POST", url := "b" ++ "/memory/update", headers := []
        , body := some (.obj (dictMerge [("id", .str "outer")]
            [("content", .str "c"), ("id", .str "inner")]))
        , query := none }
        (processOutcome (.requestException "e"))
    ∧ jlookup "id" (dictMerge [("id", .str "outer")]
        [("content", .str "c"), ("id", .str "inner")]) =
        some ((jlookup "id"
          [("content", Json.str "c"), ("id", Json.str "inner")]).getD
            (.str "outer")) :=
  memory_update_body
    { api_key := "k", base_url := "b", headers := [] }
    "outer" [("content", .str "c"), ("id", .str "inner")]
    (.requestException "e") (by simp)

end Mirra
